import Mathlib

/-!
Verification development for the DataPilot frontend and its specified
backend core (Query Execution & Connection Governance Engine).

The definitions below are shallow embeddings of the TypeScript source
under `frontend/src` (components, hooks and the API client), together
with spec-modelled definitions for the backend components (SQL Statement
Validator, Query Record Store, Connection Pool Manager) whose code is
described by the specification but not present in the frontend sources.
-/

/- ===================================================================
   Part 1: JavaScript value model.

   Query result cells are arbitrary JSON-decoded JavaScript values.
   Numbers are modelled as integers (their rendering is decimal text);
   `undefined` is kept distinct from `null` because the source code
   treats both (`value === null || value === undefined`, `row[col] ?? ""`).
   =================================================================== -/

inductive JSValue : Type where
  | null : JSValue
  | undefined : JSValue
  | bool : Bool → JSValue
  | num : Int → JSValue
  | str : String → JSValue
  | arr : List JSValue → JSValue
  | obj : List (String × JSValue) → JSValue
deriving Repr

/-- Decimal digit character for `d < 10`. -/
def digitChar (d : Nat) : Char :=
  Char.ofNat (48 + d)

/-- Decimal digits of a natural number, most significant first. -/
def natDigits (n : Nat) : List Char :=
  if _h : n < 10 then [digitChar n]
  else natDigits (n / 10) ++ [digitChar (n % 10)]
decreasing_by
  exact Nat.div_lt_self (by omega) (by omega)

/-- Decimal rendering of a natural number (JavaScript `String(n)`). -/
def natToString (n : Nat) : String :=
  String.mk (natDigits n)

/-- Decimal rendering of an integer (JavaScript `String(n)` for integral numbers). -/
def intToString (n : Int) : String :=
  if n < 0 then "-" ++ natToString n.natAbs else natToString n.natAbs

/-- JSON string escaping of one character, as produced by `JSON.stringify`. -/
def escapeChar (c : Char) : List Char :=
  if c = '"' then ['\\', '"']
  else if c = '\\' then ['\\', '\\']
  else if c = '\n' then ['\\', 'n']
  else if c = '\r' then ['\\', 'r']
  else if c = '\t' then ['\\', 't']
  else [c]

/-- JSON string escaping, applied characterwise. -/
def escapeString (s : String) : String :=
  String.mk (s.data.flatMap escapeChar)

/-- JSON rendering of a string literal: escaped and wrapped in quotes. -/
def quoteString (s : String) : String :=
  "\"" ++ escapeString s ++ "\""

/-- JavaScript `Array.prototype.join(sep)`. -/
def joinWith (sep : String) : List String → String
  | [] => ""
  | [x] => x
  | x :: y :: xs => x ++ sep ++ joinWith sep (y :: xs)

mutual

/-- JavaScript `JSON.stringify`: `none` is the `undefined` outcome (only
produced for a top-level `undefined`). -/
def jsonStringify : JSValue → Option String
  | .undefined => none
  | .null => some "null"
  | .bool b => some (if b then "true" else "false")
  | .num n => some (intToString n)
  | .str s => some (quoteString s)
  | .arr xs => some ("[" ++ joinWith "," (jsonArrayItems xs) ++ "]")
  | .obj fs => some ("\x7b" ++ joinWith "," (jsonObjectItems fs) ++ "\x7d")

/-- Serialized array elements; `undefined` elements serialize as `null`. -/
def jsonArrayItems : List JSValue → List String
  | [] => []
  | x :: xs => (jsonStringify x).getD "null" :: jsonArrayItems xs

/-- Serialized object entries; entries whose value is `undefined` are omitted. -/
def jsonObjectItems : List (String × JSValue) → List String
  | [] => []
  | (k, v) :: fs =>
    match jsonStringify v with
    | some s => (quoteString k ++ ":" ++ s) :: jsonObjectItems fs
    | none => jsonObjectItems fs

end

/-- JavaScript `String(v)` for the primitive values `formatValue` can reach
in its final branch (numbers and strings; booleans, `null`, `undefined` and
objects are intercepted by the earlier branches of `formatValue`). -/
def jsString : JSValue → String
  | .null => "null"
  | .undefined => "undefined"
  | .bool b => if b then "true" else "false"
  | .num n => intToString n
  | .str s => s
  | .arr xs => joinWith "," (xs.map fun x => (jsonStringify x).getD "")
  | .obj _ => "[object Object]"

/- ===================================================================
   Part 2: QueryResultsTable (frontend/src/components/queries/query-results-table.tsx).
   =================================================================== -/

/-- Cell formatting from `QueryResultsTable.formatValue`:
`null`/`undefined` render empty, booleans render as `"true"`/`"false"`,
objects (arrays included: `typeof value === "object"`) render via
`JSON.stringify`, and everything else via `String(value)`. -/
def formatValue : JSValue → String
  | .null => ""
  | .undefined => ""
  | .bool b => if b then "true" else "false"
  | .arr xs => (jsonStringify (.arr xs)).getD ""
  | .obj fs => (jsonStringify (.obj fs)).getD ""
  | .num n => jsString (.num n)
  | .str s => jsString (.str s)

/-- Row of a query result: a JavaScript record, modelled as an association
list of field names to values. -/
def Row : Type := List (String × JSValue)

/-- JavaScript property read `row[col]`: a missing key reads as `undefined`. -/
def getField (row : Row) (c : String) : JSValue :=
  match row.find? (fun p => p.1 == c) with
  | some p => p.2
  | none => .undefined

/-- Abstract DOM node produced by rendering. -/
inductive Node : Type where
  | text : String → Node
  | elem : String → List Node → Node
deriving Repr

mutual

/-- Whether a rendered tree contains a text node with exactly the given text. -/
def containsText (t : String) : Node → Bool
  | .text s => s == t
  | .elem _ cs => containsTextList t cs

/-- List version of `containsText`. -/
def containsTextList (t : String) : List Node → Bool
  | [] => false
  | n :: ns => containsText t n || containsTextList t ns

end

/-- Rendering of `QueryResultsTable`: the empty state for no rows, otherwise
a table whose header cells are the column names and whose body cells are the
formatted values `formatValue(row[column])`, plus the row-count footer. -/
def renderResultsTable (columns : List String) (data : List Row) : Node :=
  if data.length == 0 then
    .elem "div" [.text "No results found"]
  else
    .elem "div"
      [ .elem "table"
          [ .elem "thead"
              [ .elem "tr" (columns.map fun c => .elem "th" [.text c]) ]
          , .elem "tbody"
              (data.map fun row =>
                .elem "tr"
                  (columns.map fun c => .elem "td" [.text (formatValue (getField row c))]))
          ]
      , .elem "div"
          [ .text (natToString data.length)
          , .text (if data.length == 1 then " row" else " rows") ]
      ]

/- ===================================================================
   Part 4: QueryResult and the query page (frontend/src/app/dashboard,
   QueryPage: results card and handleExport).
   =================================================================== -/

/-- The `QueryResult` interface of `types/query.ts`: query id, generated SQL
text, ordered column names, row data as an ordered list of records, row
count, execution duration in milliseconds, and status. -/
structure QueryResult where
  query_id : String
  sql_query : String
  columns : List String
  data : List Row
  row_count : Nat
  execution_time_ms : Nat
  status : String

/-- Rendering of the `QueryPage` results card: the `CardDescription` line with
the row count and execution time, the results tab with `QueryResultsTable`,
and the SQL tab with `SQLDisplay` (a `pre`/`code` block holding the SQL). -/
def renderQueryPageResult (r : QueryResult) : Node :=
  .elem "Card"
    [ .elem "CardHeader"
        [ .elem "CardTitle" [.text "Query Results"]
        , .elem "CardDescription"
            [ .text (natToString r.row_count)
            , .text (if r.row_count == 1 then " row" else " rows")
            , .text " returned"
            , .elem "span" [.text (natToString r.execution_time_ms ++ "ms")] ]
        ]
    , .elem "CardContent"
        [ .elem "Tabs"
            [ .elem "TabsContent-results" [renderResultsTable r.columns r.data]
            , .elem "TabsContent-sql" [.elem "pre" [.elem "code" [.text r.sql_query]]] ]
        ]
    ]

/-- JavaScript nullish coalescing `v ?? d`. -/
def nullishCoalesce (v d : JSValue) : JSValue :=
  match v with
  | .null => d
  | .undefined => d
  | v => v

/-- One CSV cell of `handleExport`: `JSON.stringify(row[col] ?? "")`. -/
def csvCell (row : Row) (col : String) : String :=
  (jsonStringify (nullishCoalesce (getField row col) (.str ""))).getD ""

/-- File produced by `handleExport`. -/
structure ExportFile where
  content : String
  filename : String
  mimeType : String

/-- The `format === "csv"` branch of `QueryPage.handleExport`: the header line
joins the column names with commas, each data row joins
`JSON.stringify(row[col] ?? "")` per column with commas, and the lines are
joined with a newline. -/
def handleExportCsv (r : QueryResult) : ExportFile :=
  let headers := joinWith "," r.columns
  let rows := r.data.map fun row => joinWith "," (r.columns.map (csvCell row))
  { content := joinWith "\n" (headers :: rows)
  , filename := "query-results.csv"
  , mimeType := "text/csv" }

/-- Lines of a string, split at newline characters. -/
def linesOf (s : String) : List String :=
  (s.data.splitOn '\n').map String.mk

/-- Concrete one-row query result used to witness the rendering theorems. -/
def queryPageDemo : QueryResult :=
  { query_id := "q-demo"
  , sql_query := "SELECT id FROM t"
  , columns := ["id"]
  , data := [[("id", JSValue.num 7)]]
  , row_count := 1
  , execution_time_ms := 5
  , status := "success" }

/-- Successful query result with a column but zero data rows. -/
def zeroRowResult : QueryResult :=
  { query_id := "q-zero"
  , sql_query := "SELECT id FROM t WHERE 1 = 0"
  , columns := ["id"]
  , data := []
  , row_count := 0
  , execution_time_ms := 0
  , status := "success" }

/-- Query result whose single column name contains a newline character. -/
def csvNewlineColumn : QueryResult :=
  { query_id := "q-nl", sql_query := "", columns := ["a\nb"], data := []
  , row_count := 0, execution_time_ms := 0, status := "success" }

/- ===================================================================
   Part 5: API client error handling (frontend/src/lib/api.ts,
   ApiClient.handleResponse) and the query hook (use-queries.ts,
   useQueries.executeQuery).
   =================================================================== -/

/-- Shape of the `ApiError` interface of `api.ts`. -/
structure ApiError where
  message : String
  status : Nat
  detail : Option String
deriving Repr, DecidableEq

/-- A thrown JavaScript value as observed by a `catch (err)` handler: either
the structured `ApiError` thrown by `handleResponse`, or a raw runtime error
carrying only a message (e.g. a JSON parse rejection). -/
inductive Thrown : Type where
  | api : ApiError → Thrown
  | raw : String → Thrown
deriving Repr, DecidableEq

/-- JavaScript truthiness. -/
def jsTruthy : JSValue → Bool
  | .null => false
  | .undefined => false
  | .bool b => b
  | .num n => n != 0
  | .str s => !(s == "")
  | .arr _ => true
  | .obj _ => true

/-- JavaScript `a || b` on strings (the empty string is falsy). -/
def jsOrStr (a b : String) : String :=
  if a == "" then b else a

/-- Property read on a decoded JSON object; anything else reads as `undefined`. -/
def objField (v : JSValue) (k : String) : JSValue :=
  match v with
  | .obj fs => getField fs k
  | _ => .undefined

/-- String view of a JSValue for the `detail` assignment; the error bodies the
backend produces carry string `detail`/`message` fields, so non-string values
are modelled as absent. -/
def jsValueAsOptString : JSValue → Option String
  | .str s => some s
  | _ => none

/-- The `errorData.detail || errorData.message` assignment of `handleResponse`. -/
def errDetailOf (body : JSValue) : Option String :=
  let d := objField body "detail"
  let m := objField body "message"
  jsValueAsOptString (if jsTruthy d then d else m)

/-- HTTP response as consumed by `handleResponse`: the `ok` flag, status code,
status text, and the outcome of `response.json()` (`Except.error` is a parse
rejection carrying the raw error message). -/
structure Response where
  ok : Bool
  status : Nat
  statusText : String
  json : Except String JSValue

/-- The `err.detail || err.message || fallback` conversion used by every query
and connection hook before storing a readable error string. -/
def errorToDisplay (t : Thrown) (fallback : String) : String :=
  match t with
  | .api e => jsOrStr (e.detail.getD "") (jsOrStr e.message fallback)
  | .raw m => jsOrStr m fallback

/-- `ApiClient.handleResponse`: a non-ok response throws an `ApiError` built
from the status and status text, with `detail` extracted from the JSON body
when the body parses (a parse failure there is swallowed); an ok 204 yields an
empty object; otherwise the parsed body is returned (a parse rejection on the
ok path propagates as a raw error). -/
def handleResponse (resp : Response) : Except Thrown JSValue :=
  if !resp.ok then
    let base : ApiError := { message := resp.statusText, status := resp.status, detail := none }
    match resp.json with
    | .ok body => .error (.api { base with detail := errDetailOf body })
    | .error _ => .error (.api base)
  else if resp.status == 204 then
    .ok (.obj [])
  else
    match resp.json with
    | .ok body => .ok body
    | .error msg => .error (.raw msg)

/-- Visible outcome of `useQueries.executeQuery`: the hook-level error display
state and the returned-or-rethrown result. -/
structure HookOutcome where
  errorState : Option String
  result : Except Thrown JSValue
deriving Repr

/-- `useQueries.executeQuery` around one response: on failure the caught error
is converted to a readable string with the fixed fallback message
`"Failed to execute query"` and stored in the error state before rethrowing. -/
def executeQuery (resp : Response) : HookOutcome :=
  match handleResponse resp with
  | .ok v => { errorState := none, result := .ok v }
  | .error t =>
    { errorState := some (errorToDisplay t "Failed to execute query")
    , result := .error t }

/-- Concrete failing response used to witness C5. -/
def apiDemoResponse : Response :=
  { ok := false
  , status := 500
  , statusText := "Internal Server Error"
  , json := .ok (.obj [("detail", .str "boom")]) }

/- ===================================================================
   Part 6: AddConnectionDialog
   (frontend/src/components/connections/add-connection-dialog.tsx).
   =================================================================== -/

/-- The `CreateConnectionData` form state of the dialog (`useState` initial
values: empty strings, port 5432, SSL off). -/
structure CreateConnectionData where
  name : String
  host : String
  port : Int
  database : String
  username : String
  password : String
  ssl_enabled : Bool
deriving Repr, DecidableEq

/-- The `TestConnectionData` payload sent to `POST /connections/test`. -/
structure TestConnectionData where
  host : String
  port : Int
  database : String
  username : String
  password : String
  ssl_enabled : Bool
deriving Repr, DecidableEq

/-- The `TestConnectionResult` interface of `types/connection.ts`: `success`,
`message`, optional `error`, optional `response_time_ms`. -/
structure TestConnectionResult where
  success : Bool
  message : String
  error : Option String
  response_time_ms : Option Nat
deriving Repr, DecidableEq

/-- The connection-test result shape as the spec words it:
`{success, message, response_time_ms?}` (no `error` field). -/
structure TestConnectionResultSpec where
  success : Bool
  message : String
  response_time_ms : Option Nat
deriving Repr, DecidableEq

/-- Projection of the implemented result type onto the spec-worded shape. -/
def toSpecShape (r : TestConnectionResult) : TestConnectionResultSpec :=
  { success := r.success, message := r.message, response_time_ms := r.response_time_ms }

/-- The `testStatus` record kept by the dialog. -/
structure TestStatus where
  tested : Bool
  success : Bool
  message : String
deriving Repr, DecidableEq

/-- Local state of `AddConnectionDialog`: form data, test status, error text. -/
structure DialogState where
  formData : CreateConnectionData
  testStatus : Option TestStatus
  error : Option String
deriving Repr, DecidableEq

/-- Initial `useState` form data of the dialog. -/
def initialFormData : CreateConnectionData :=
  { name := "", host := "", port := 5432, database := ""
  , username := "", password := "", ssl_enabled := false }

/-- Initial dialog state. -/
def initialDialogState : DialogState :=
  { formData := initialFormData, testStatus := none, error := none }

/-- The form fields the dialog can change. -/
inductive FormField : Type where
  | name | host | port | database | username | password | ssl_enabled
deriving Repr, DecidableEq

/-- A value written into a form field. -/
inductive FieldValue : Type where
  | str : String → FieldValue
  | int : Int → FieldValue
  | bool : Bool → FieldValue
deriving Repr, DecidableEq

/-- The `{ ...formData, [field]: value }` spread update; a value of the wrong
shape for the field (which the dialog never produces) leaves the data as is. -/
def setField (d : CreateConnectionData) (f : FormField) (v : FieldValue) : CreateConnectionData :=
  match f, v with
  | .name, .str s => { d with name := s }
  | .host, .str s => { d with host := s }
  | .port, .int n => { d with port := n }
  | .database, .str s => { d with database := s }
  | .username, .str s => { d with username := s }
  | .password, .str s => { d with password := s }
  | .ssl_enabled, .bool b => { d with ssl_enabled := b }
  | _, _ => d

/-- `handleChange`: updates the field and resets `testStatus` to null. -/
def handleChange (s : DialogState) (f : FormField) (v : FieldValue) : DialogState :=
  { s with formData := setField s.formData f v, testStatus := none }

/-- The six connection fields passed to `testConnection` by `handleTest`. -/
def toTestData (d : CreateConnectionData) : TestConnectionData :=
  { host := d.host, port := d.port, database := d.database
  , username := d.username, password := d.password, ssl_enabled := d.ssl_enabled }

/-- The `!formData.host || !formData.database || !formData.username ||
!formData.password` required-field check of `handleTest`. -/
def requiredFieldsMissing (d : CreateConnectionData) : Bool :=
  d.host == "" || d.database == "" || d.username == "" || d.password == ""

/-- `handleTest`: clears error and test status, validates required fields,
then records the outcome of `testConnection` (success/message on resolution,
a converted error message with fallback `"Connection test failed"` on a
throw) in `testStatus` only. -/
def handleTest (s : DialogState) (result : Except Thrown TestConnectionResult) : DialogState :=
  let s1 : DialogState := { s with error := none, testStatus := none }
  if requiredFieldsMissing s.formData then
    { s1 with error := some "Please fill in all required fields" }
  else
    match result with
    | .ok r =>
      { s1 with testStatus := some { tested := true, success := r.success, message := r.message } }
    | .error err =>
      { s1 with testStatus := some { tested := true, success := false, message := errorToDisplay err "Connection test failed" } }

/-- `handleSubmit`: requires a name, requires `testStatus?.success`, and only
then calls `createConnection(formData)`; on success the form is reset, on a
thrown error a readable message with fallback `"Failed to create connection"`
is stored. The second component records the `createConnection` call with its
argument (`none` when `createConnection` was not invoked). -/
def handleSubmit (s : DialogState) (createResult : Except Thrown Unit) :
    DialogState × Option CreateConnectionData :=
  let s1 : DialogState := { s with error := none }
  if s.formData.name == "" then
    ({ s1 with error := some "Connection name is required" }, none)
  else
    match s.testStatus with
    | some ts =>
      if ts.success then
        match createResult with
        | .ok _ =>
          ({ formData := initialFormData, testStatus := none, error := none }, some s.formData)
        | .error err =>
          ({ s1 with error := some (errorToDisplay err "Failed to create connection") }
          , some s.formData)
      else ({ s1 with error := some "Please test the connection first to ensure it works" }, none)
    | none => ({ s1 with error := some "Please test the connection first to ensure it works" }, none)

/-- User/network events the dialog reacts to; test and submit events carry the
outcome the backend call would produce. -/
inductive DialogEvent : Type where
  | change : FormField → FieldValue → DialogEvent
  | test : Except Thrown TestConnectionResult → DialogEvent
  | submit : Except Thrown Unit → DialogEvent

/-- Success verdict recorded by `handleTest` for a test outcome. -/
def testOutcomeSuccess : Except Thrown TestConnectionResult → Bool
  | .ok r => r.success
  | .error _ => false

/-- Dialog state extended with ghost bookkeeping: the data last passed to
`testConnection` together with the recorded verdict. -/
structure GhostDialogState where
  dialog : DialogState
  lastTest : Option (TestConnectionData × Bool)

/-- One dialog step; the second component records a `createConnection` call. -/
def ghostStep (g : GhostDialogState) (e : DialogEvent) :
    GhostDialogState × Option CreateConnectionData :=
  match e with
  | .change f v =>
    ({ dialog := handleChange g.dialog f v, lastTest := g.lastTest }, none)
  | .test r =>
    ({ dialog := handleTest g.dialog r
     , lastTest :=
        if requiredFieldsMissing g.dialog.formData then g.lastTest
        else some (toTestData g.dialog.formData, testOutcomeSuccess r) }, none)
  | .submit r =>
    ({ dialog := (handleSubmit g.dialog r).1, lastTest := g.lastTest }
    , (handleSubmit g.dialog r).2)

/-- Initial ghost state. -/
def initialGhostState : GhostDialogState :=
  { dialog := initialDialogState, lastTest := none }

/-- Running the dialog over a list of events. -/
def runDialog (g : GhostDialogState) : List DialogEvent → GhostDialogState
  | [] => g
  | e :: es => runDialog (ghostStep g e).1 es

/-- Invariant: whenever `testStatus` is set, the current form data is exactly
the data of the most recent `testConnection` call, and the recorded success
flag is that call's verdict. -/
def TestInvariant (g : GhostDialogState) : Prop :=
  ∀ ts : TestStatus, g.dialog.testStatus = some ts →
    g.lastTest = some (toTestData g.dialog.formData, ts.success)

/-- Events driving the dialog to a successful test with filled-in fields. -/
def dialogDemoEvents : List DialogEvent :=
  [ .change .name (.str "prod")
  , .change .host (.str "db.example.com")
  , .change .database (.str "appdb")
  , .change .username (.str "svc")
  , .change .password (.str "secret")
  , .test (.ok { success := true, message := "Connection successful", error := none, response_time_ms := some 12 }) ]

/-- The form data the demo events build up. -/
def dialogDemoData : CreateConnectionData :=
  { name := "prod", host := "db.example.com", port := 5432, database := "appdb"
  , username := "svc", password := "secret", ssl_enabled := false }

/- ===================================================================
   Part 7: SQL Statement Validator (spec §4.3). The validator's code is not
   among the available sources; it is modelled from the spec.
   =================================================================== -/

/-- Characters forming a SQL word token (identifier or keyword). -/
def isWordChar (c : Char) : Bool :=
  c.isAlpha || c.isDigit || c = '_'

/-- Tokenizer accumulator: splits a character stream into maximal word runs. -/
def tokenizeAux : List Char → List Char → List String
  | [], acc => if acc.isEmpty then [] else [String.mk acc.reverse]
  | c :: cs, acc =>
    if isWordChar c then tokenizeAux cs (c :: acc)
    else if acc.isEmpty then tokenizeAux cs []
    else String.mk acc.reverse :: tokenizeAux cs []

/-- Modelled from the spec: keyword-level view of a SQL statement — the
upper-cased word tokens, in order. -/
def sqlTokens (s : String) : List String :=
  tokenizeAux (s.data.map Char.toUpper) []

/-- Whitespace trimming at the character level. -/
def trimChars (cs : List Char) : List Char :=
  ((cs.dropWhile Char.isWhitespace).reverse.dropWhile Char.isWhitespace).reverse

/-- Whitespace trimming of a SQL string. -/
def trimString (s : String) : String :=
  String.mk (trimChars s.data)

/-- The spec's mutating-keyword deny list. -/
def mutatingKeywords : List String :=
  ["INSERT", "UPDATE", "DELETE", "DROP", "ALTER", "TRUNCATE", "GRANT", "REVOKE", "CREATE"]

/-- The spec's read-only leading-keyword allow list. -/
def readOnlyLeadingKeywords : List String :=
  ["SELECT", "WITH", "EXPLAIN"]

/-- System/catalog schema names rejected unless allow-listed (spec §4.3). -/
def systemSchemaNames : List String :=
  ["PG_CATALOG", "INFORMATION_SCHEMA"]

/-- Dropping one optional trailing semicolon from a trimmed statement. -/
def stripTrailingSemicolonChars (cs : List Char) : List Char :=
  match cs.reverse with
  | ';' :: rest => rest.reverse
  | _ => cs

/-- Modelled from the spec: a single statement admits no statement-separator
chaining — after dropping the optional trailing semicolon, no semicolon
remains. -/
def singleStatement (s : String) : Bool :=
  !((stripTrailingSemicolonChars (trimChars s.data)).contains ';')

/-- Result of `validate(sql_text)` per the spec contract. -/
structure ValidationResult where
  allowed : Bool
  normalized_sql : String
  reason : Option String
deriving Repr, DecidableEq

/-- Modelled from the spec: `validate(sql_text)` of the SQL Statement
Validator (§4.3) — purely textual; rejects multi-statement chaining, any
mutating keyword anywhere in the statement, system-schema references, and any
leading keyword outside the read-only allow list. -/
def validate (sql : String) : ValidationResult :=
  let norm := trimString sql
  let toks := sqlTokens norm
  if !(singleStatement sql) then
    { allowed := false, normalized_sql := norm, reason := some "multiple statements are not allowed" }
  else if toks.any (fun t => mutatingKeywords.contains t) then
    { allowed := false, normalized_sql := norm, reason := some "mutating keyword present" }
  else if toks.any (fun t => systemSchemaNames.contains t) then
    { allowed := false, normalized_sql := norm, reason := some "system schema reference" }
  else
    match toks.head? with
    | some t =>
      if readOnlyLeadingKeywords.contains t then
        { allowed := true, normalized_sql := norm, reason := none }
      else
        { allowed := false, normalized_sql := norm, reason := some "statement type not allowed" }
    | none => { allowed := false, normalized_sql := norm, reason := some "empty statement" }

/- ===================================================================
   Part 8: Query Record Store and Pool Manager tenant scoping (spec §4.6,
   §4.1, §4.2). This backend code is not among the available sources; it is
   modelled from the spec.
   =================================================================== -/

/-- Errors a tenant-scoped operation can surface; `forbidden` exists in the
error vocabulary but the spec forbids ever returning it for cross-tenant
access. -/
inductive StoreError : Type where
  | notFound : StoreError
  | forbidden : StoreError
deriving Repr, DecidableEq

/-- Modelled from the spec: a stored QueryRecord (identity and audit fields). -/
structure QueryRecordRow where
  id : String
  tenant_id : String
  user_id : String
  natural_language_query : String
  sql_query : Option String
  status : String
  is_saved : Bool
  title : Option String
deriving Repr, DecidableEq

/-- Modelled from the spec: `get(id, tenant_id)` of the Query Record Store —
lookup is tenant-scoped; a record of another tenant is indistinguishable from
a missing one. -/
def getRecord (recs : List QueryRecordRow) (id0 tenant : String) :
    Except StoreError QueryRecordRow :=
  match recs.find? (fun r => r.id == id0 && r.tenant_id == tenant) with
  | some r => .ok r
  | none => .error .notFound

/-- Modelled from the spec: `delete(id, tenant_id)` of the Query Record Store. -/
def deleteRecord (recs : List QueryRecordRow) (id0 tenant : String) :
    Except StoreError (List QueryRecordRow) :=
  match recs.find? (fun r => r.id == id0 && r.tenant_id == tenant) with
  | some _ => .ok (recs.filter (fun r => !(r.id == id0 && r.tenant_id == tenant)))
  | none => .error .notFound

/-- Modelled from the spec: `markSaved(id, tenant_id, title)` of the Query
Record Store — the only post-terminal mutation, touching the saved/title
fields. -/
def markSaved (recs : List QueryRecordRow) (id0 tenant title : String) :
    Except StoreError (List QueryRecordRow) :=
  match recs.find? (fun r => r.id == id0 && r.tenant_id == tenant) with
  | some _ => .ok (recs.map (fun r =>
      if r.id == id0 && r.tenant_id == tenant then
        { r with is_saved := true, title := some title }
      else r))
  | none => .error .notFound

/-- Modelled from the spec: `list(tenant_id, user_id, ..., saved_only)` of the
Query Record Store — tenant- and user-scoped filtering. -/
def listRecords (recs : List QueryRecordRow) (tenant user : String)
    (savedOnly : Bool) : List QueryRecordRow :=
  recs.filter (fun r => r.tenant_id == tenant && r.user_id == user && (!savedOnly || r.is_saved))

/-- Modelled from the spec: connection identity visible to the Pool Manager. -/
structure ConnectionRow where
  id : String
  tenant_id : String
deriving Repr, DecidableEq

/-- A leased pool handle (runtime-only). -/
structure PoolHandle where
  connection_id : String
deriving Repr, DecidableEq

/-- Modelled from the spec: `acquire(connection_id, tenant_id)` of the
Connection Pool Manager, restricted to its tenant-scoping behaviour
(concurrency ceilings are orthogonal to C6): resolution goes through the
Vault Adapter, which fails with `NotFound` when the connection does not
belong to the requesting tenant. -/
def acquire (conns : List ConnectionRow) (id0 tenant : String) :
    Except StoreError PoolHandle :=
  match conns.find? (fun c => c.id == id0 && c.tenant_id == tenant) with
  | some c => .ok { connection_id := c.id }
  | none => .error .notFound

/-- Concrete store for the C6 witness: one record and one connection, both
owned by tenant A. -/
def demoRecords : List QueryRecordRow :=
  [ { id := "q1", tenant_id := "tenantA", user_id := "u1"
    , natural_language_query := "show all users", sql_query := some "SELECT * FROM users"
    , status := "success", is_saved := false, title := none } ]

/-- Concrete connection list for the C6 witness. -/
def demoConnections : List ConnectionRow :=
  [ { id := "c1", tenant_id := "tenantA" } ]

/- ===================================================================
   Part 9: HistoryPage pagination
   (frontend/src/app/dashboard/history/page.tsx).
   =================================================================== -/

/-- The fixed `pageSize = 20` of the history page. -/
def pageSize : Nat := 20

/-- `totalPages = Math.ceil(total / pageSize)`. -/
def totalPages (total : Nat) : Nat :=
  (total + pageSize - 1) / pageSize

/-- Pagination-relevant state of the history page. -/
structure HistoryPageState where
  page : Nat
  loading : Bool
deriving Repr, DecidableEq

/-- The `disabled={page === 1 || loading}` condition of the Previous button. -/
def prevDisabled (s : HistoryPageState) : Bool :=
  s.page == 1 || s.loading

/-- The `disabled={page === totalPages || loading}` condition of the Next button. -/
def nextDisabled (total : Nat) (s : HistoryPageState) : Bool :=
  s.page == totalPages total || s.loading

/-- Pagination events: clicks on the two buttons and loading-state changes. -/
inductive HistoryEvent : Type where
  | clickPrev : HistoryEvent
  | clickNext : HistoryEvent
  | loadingChanged : Bool → HistoryEvent
deriving Repr, DecidableEq

/-- One pagination step. The pagination controls are rendered only under the
`totalPages > 1` guard, so clicks are no-ops otherwise; a disabled button
receives no click. -/
def historyStep (total : Nat) (s : HistoryPageState) (e : HistoryEvent) : HistoryPageState :=
  if totalPages total ≤ 1 then
    match e with
    | .loadingChanged b => { s with loading := b }
    | _ => s
  else
    match e with
    | .clickPrev => if prevDisabled s then s else { s with page := s.page - 1 }
    | .clickNext => if nextDisabled total s then s else { s with page := s.page + 1 }
    | .loadingChanged b => { s with loading := b }

/-- Running the history page over a list of pagination events. -/
def runHistory (total : Nat) (s : HistoryPageState) : List HistoryEvent → HistoryPageState
  | [] => s
  | e :: es => runHistory total (historyStep total s e) es

/-- Initial history page state: `useState(1)` for the page, not loading. -/
def initialHistoryState : HistoryPageState :=
  { page := 1, loading := false }

/- ===================================================================
   Theorems.
   =================================================================== -/

/- ===================================================================
   Theorems for C8.
   =================================================================== -/

/-- Helper: `jsonStringify` is defined (not the `undefined` outcome) on every
value other than `undefined`; in particular on every array and object. -/
theorem jsonStringify_isSome (v : JSValue) (h : v ≠ .undefined) :
    (jsonStringify v).isSome = true := by
  cases v <;> simp [jsonStringify] at h ⊢

/-- C8: `formatValue` is a total function on every cell value: `null` and
`undefined` render as the empty string, booleans render as `"true"`/`"false"`,
objects and arrays render as their (always defined) JSON serialization, and
every other value renders via `String()`; being a total Lean function, no
input makes it throw. -/
theorem formatValue_total :
    formatValue .null = "" ∧
    formatValue .undefined = "" ∧
    (∀ b, formatValue (.bool b) = if b then "true" else "false") ∧
    (∀ xs, ∃ s, jsonStringify (.arr xs) = some s ∧ formatValue (.arr xs) = s) ∧
    (∀ fs, ∃ s, jsonStringify (.obj fs) = some s ∧ formatValue (.obj fs) = s) ∧
    (∀ n, formatValue (.num n) = jsString (.num n)) ∧
    (∀ s, formatValue (.str s) = jsString (.str s)) := by
  refine ⟨rfl, rfl, fun b => rfl, fun xs => ?_, fun fs => ?_, fun n => rfl, fun s => rfl⟩
  · exact ⟨_, rfl, rfl⟩
  · exact ⟨_, rfl, rfl⟩

/- ===================================================================
   Part 3: newline-freedom of serialized values (needed for the CSV
   line-structure analysis of `handleExport`).
   =================================================================== -/

/-- Digit characters are never the newline character. -/
theorem digitChar_ne_newline (d : Nat) (hd : d < 10) : digitChar d ≠ '\n' := by
  interval_cases d <;> decide

/-- Decimal digit lists never contain a newline. -/
theorem newline_not_mem_natDigits (n : Nat) : '\n' ∉ natDigits n := by
  induction n using natDigits.induct with
  | case1 n h =>
    rw [natDigits, dif_pos h]
    simp only [List.mem_singleton]
    exact fun heq => digitChar_ne_newline n h heq.symm
  | case2 n h ih =>
    rw [natDigits, dif_neg h]
    simp only [List.mem_append, List.mem_singleton]
    rintro (hmem | heq)
    · exact ih hmem
    · exact digitChar_ne_newline (n % 10) (Nat.mod_lt n (by omega)) heq.symm

/-- Decimal renderings of naturals contain no newline. -/
theorem newline_not_mem_natToString (n : Nat) : '\n' ∉ (natToString n).data :=
  newline_not_mem_natDigits n

/-- Decimal renderings of integers contain no newline. -/
theorem newline_not_mem_intToString (n : Int) : '\n' ∉ (intToString n).data := by
  unfold intToString
  split
  · rw [String.data_append]
    simp only [List.mem_append]
    rintro (h | h)
    · simp at h
    · exact newline_not_mem_natToString n.natAbs h
  · exact newline_not_mem_natToString n.natAbs

/-- JSON escaping never emits a newline (a literal newline escapes to `\n`). -/
theorem newline_not_mem_escapeChar (c : Char) : '\n' ∉ escapeChar c := by
  unfold escapeChar
  split_ifs with h1 h2 h3 h4 h5
  · decide
  · decide
  · decide
  · decide
  · decide
  · simp only [List.mem_singleton]
    exact fun heq => h3 heq.symm

/-- Escaped strings contain no newline. -/
theorem newline_not_mem_escapeString (s : String) : '\n' ∉ (escapeString s).data := by
  unfold escapeString
  simp only [List.mem_flatMap, not_exists, not_and]
  intro c _ hmem
  exact newline_not_mem_escapeChar c hmem

/-- Quoted strings contain no newline. -/
theorem newline_not_mem_quoteString (s : String) : '\n' ∉ (quoteString s).data := by
  unfold quoteString
  simp only [String.data_append, List.mem_append]
  rintro ((h | h) | h)
  · simp at h
  · exact newline_not_mem_escapeString s h
  · simp at h

/-- Joining newline-free strings with a newline-free separator stays newline-free. -/
theorem newline_not_mem_joinWith (sep : String) (hsep : '\n' ∉ sep.data)
    (l : List String) (h : ∀ x ∈ l, '\n' ∉ x.data) : '\n' ∉ (joinWith sep l).data := by
  induction l with
  | nil => simp [joinWith]
  | cons x xs ih =>
    cases xs with
    | nil => exact h x (by simp)
    | cons y ys =>
      rw [joinWith]
      simp only [String.data_append, List.mem_append]
      rintro ((hx | hs) | hr)
      · exact h x (by simp) hx
      · exact hsep hs
      · exact ih (fun z hz => h z (List.mem_cons_of_mem x hz)) hr

mutual

/-- JSON serializations of values contain no newline character. -/
theorem jsonStringify_noNewline : (v : JSValue) → (s : String) →
    jsonStringify v = some s → '\n' ∉ s.data
  | .undefined, s, h => by simp [jsonStringify] at h
  | .null, s, h => by
    simp only [jsonStringify, Option.some.injEq] at h
    subst h; decide
  | .bool b, s, h => by
    simp only [jsonStringify, Option.some.injEq] at h
    subst h; cases b <;> decide
  | .num n, s, h => by
    simp only [jsonStringify, Option.some.injEq] at h
    subst h; exact newline_not_mem_intToString n
  | .str t, s, h => by
    simp only [jsonStringify, Option.some.injEq] at h
    subst h; exact newline_not_mem_quoteString t
  | .arr xs, s, h => by
    simp only [jsonStringify, Option.some.injEq] at h
    subst h
    simp only [String.data_append, List.mem_append]
    rintro ((hl | hj) | hr)
    · simp at hl
    · exact newline_not_mem_joinWith "," (by decide) _
        (jsonArrayItems_noNewline xs) hj
    · simp at hr
  | .obj fs, s, h => by
    simp only [jsonStringify, Option.some.injEq] at h
    subst h
    simp only [String.data_append, List.mem_append]
    rintro ((hl | hj) | hr)
    · simp at hl
    · exact newline_not_mem_joinWith "," (by decide) _
        (jsonObjectItems_noNewline fs) hj
    · simp at hr

/-- Serialized array elements contain no newline character. -/
theorem jsonArrayItems_noNewline : (xs : List JSValue) →
    ∀ s ∈ jsonArrayItems xs, '\n' ∉ s.data
  | [] => by simp [jsonArrayItems]
  | x :: xs => by
    intro s hs
    rw [jsonArrayItems] at hs
    rcases List.mem_cons.mp hs with heq | hmem
    · subst heq
      cases hx : jsonStringify x with
      | none => decide
      | some t => simpa using jsonStringify_noNewline x t hx
    · exact jsonArrayItems_noNewline xs s hmem

/-- Serialized object entries contain no newline character. -/
theorem jsonObjectItems_noNewline : (fs : List (String × JSValue)) →
    ∀ s ∈ jsonObjectItems fs, '\n' ∉ s.data
  | [] => by simp [jsonObjectItems]
  | (k, v) :: fs => by
    intro s hs
    rw [jsonObjectItems] at hs
    cases hv : jsonStringify v with
    | none =>
      rw [hv] at hs
      exact jsonObjectItems_noNewline fs s hs
    | some t =>
      rw [hv] at hs
      rcases List.mem_cons.mp hs with heq | hmem
      · subst heq
        simp only [String.data_append, List.mem_append]
        rintro ((hk | hc) | ht)
        · exact newline_not_mem_quoteString k hk
        · simp at hc
        · exact jsonStringify_noNewline v t hv ht
      · exact jsonObjectItems_noNewline fs s hmem

end

/-- Rebuilding a string from its character list. -/
theorem stringMk_data (s : String) : String.mk s.data = s := by
  cases s; rfl

/-- Unfolding equation for `List.intercalate` on a list of two or more pieces. -/
theorem intercalate_cons₂ {α : Type} (sep x y : List α) (xs : List (List α)) :
    List.intercalate sep (x :: y :: xs) = x ++ sep ++ List.intercalate sep (y :: xs) := by
  simp [List.intercalate, List.intersperse]

/-- Character data of `joinWith` is `List.intercalate` of the character data. -/
theorem joinWith_data (sep : String) (l : List String) :
    (joinWith sep l).data = List.intercalate sep.data (l.map String.data) := by
  induction l with
  | nil => simp [joinWith, List.intercalate]
  | cons x xs ih =>
    cases xs with
    | nil => simp [joinWith, List.intercalate]
    | cons y ys =>
      rw [joinWith, String.data_append, String.data_append, ih]
      simp only [List.map_cons]
      rw [intercalate_cons₂]

/-- Splitting on newlines undoes joining with newlines, provided no joined
piece contains a newline itself. -/
theorem linesOf_joinWith (l : List String) (hl : l ≠ [])
    (h : ∀ x ∈ l, '\n' ∉ x.data) : linesOf (joinWith "\n" l) = l := by
  unfold linesOf
  rw [joinWith_data]
  have hsep : ("\n" : String).data = ['\n'] := rfl
  rw [hsep]
  rw [List.splitOn_intercalate (l.map String.data) '\n'
    (by intro cs hcs
        rcases List.mem_map.mp hcs with ⟨x, hx, rfl⟩
        exact h x hx)
    (by simpa using hl)]
  rw [List.map_map]
  have : (String.mk ∘ String.data) = id := by
    funext s
    exact stringMk_data s
  rw [this, List.map_id]

/-- CSV cells contain no newline (strings are JSON-escaped). -/
theorem csvCell_noNewline (row : Row) (col : String) : '\n' ∉ (csvCell row col).data := by
  unfold csvCell
  cases hv : jsonStringify (nullishCoalesce (getField row col) (.str "")) with
  | none =>
    have hne : nullishCoalesce (getField row col) (.str "") ≠ .undefined := by
      unfold nullishCoalesce
      cases getField row col <;> simp
    have := jsonStringify_isSome _ hne
    rw [hv] at this
    simp at this
  | some t =>
    simpa using jsonStringify_noNewline _ t hv

/- ===================================================================
   Theorems for C4 and C9.
   =================================================================== -/

/-- Base case: a text node contains its own text. -/
theorem containsText_text_self (t : String) : containsText t (.text t) = true := by
  simp [containsText]

/-- Containment propagates from a member of a node list. -/
theorem containsTextList_of_mem {t : String} {n : Node} {ns : List Node}
    (hn : n ∈ ns) (h : containsText t n = true) : containsTextList t ns = true := by
  induction ns with
  | nil => cases hn
  | cons m ms ih =>
    rcases List.mem_cons.mp hn with rfl | hmem
    · simp [containsTextList, h]
    · simp [containsTextList, ih hmem]

/-- Containment propagates from a child of an element. -/
theorem containsText_elem_of_mem {t tag : String} {n : Node} {ns : List Node}
    (hn : n ∈ ns) (h : containsText t n = true) : containsText t (.elem tag ns) = true := by
  simp only [containsText]
  exact containsTextList_of_mem hn h

/-- The non-empty results table shows every column name as a header cell. -/
theorem containsText_results_table_column (columns : List String) (data : List Row)
    (hdata : data ≠ []) (c : String) (hc : c ∈ columns) :
    containsText c (renderResultsTable columns data) = true := by
  have hlen : (data.length == 0) = false := by
    simp only [beq_eq_false_iff_ne, ne_eq, List.length_eq_zero]
    exact hdata
  have h1 : containsText c (Node.elem "th" [Node.text c]) = true :=
    containsText_elem_of_mem (List.mem_singleton_self _) (containsText_text_self c)
  have h2 : containsText c
      (Node.elem "tr" (columns.map fun x => Node.elem "th" [Node.text x])) = true :=
    containsText_elem_of_mem (List.mem_map_of_mem _ hc) h1
  have h3 : containsText c
      (Node.elem "thead" [Node.elem "tr" (columns.map fun x => Node.elem "th" [Node.text x])]) = true :=
    containsText_elem_of_mem (List.mem_singleton_self _) h2
  rw [renderResultsTable, hlen]
  simp only [Bool.false_eq_true, if_false]
  exact containsText_elem_of_mem (List.mem_cons_self _ _)
    (containsText_elem_of_mem (List.mem_cons_self _ _) h3)

/-- The non-empty results table shows every formatted cell value. -/
theorem containsText_results_table_cell (columns : List String) (data : List Row)
    (row : Row) (hrow : row ∈ data) (c : String) (hc : c ∈ columns) :
    containsText (formatValue (getField row c)) (renderResultsTable columns data) = true := by
  have hdata : data ≠ [] := by
    intro hnil
    rw [hnil] at hrow
    cases hrow
  have hlen : (data.length == 0) = false := by
    simp only [beq_eq_false_iff_ne, ne_eq, List.length_eq_zero]
    exact hdata
  have h1 : containsText (formatValue (getField row c))
      (Node.elem "td" [Node.text (formatValue (getField row c))]) = true :=
    containsText_elem_of_mem (List.mem_singleton_self _) (containsText_text_self _)
  have h2 : containsText (formatValue (getField row c))
      (Node.elem "tr" (columns.map fun x => Node.elem "td" [Node.text (formatValue (getField row x))])) = true :=
    containsText_elem_of_mem (List.mem_map_of_mem _ hc) h1
  have h3 : containsText (formatValue (getField row c))
      (Node.elem "tbody" (data.map fun rw0 =>
        Node.elem "tr" (columns.map fun x => Node.elem "td" [Node.text (formatValue (getField rw0 x))]))) = true :=
    containsText_elem_of_mem (List.mem_map_of_mem _ hrow) h2
  have h4 : containsText (formatValue (getField row c))
      (Node.elem "table"
        [ Node.elem "thead" [Node.elem "tr" (columns.map fun x => Node.elem "th" [Node.text x])]
        , Node.elem "tbody" (data.map fun rw0 =>
            Node.elem "tr" (columns.map fun x => Node.elem "td" [Node.text (formatValue (getField rw0 x))]))
        ]) = true :=
    containsText_elem_of_mem (List.mem_cons_of_mem _ (List.mem_cons_self _ _)) h3
  rw [renderResultsTable, hlen]
  simp only [Bool.false_eq_true, if_false]
  exact containsText_elem_of_mem (List.mem_cons_self _ _) h4

/-- Counterexample to C4 as stated: a successful zero-row result is rendered
without its column names — the results table shows its empty state — so the
client does not render all five fields for every successful result. -/
theorem renderQueryPageResult_zero_rows_counterexample :
    zeroRowResult.status = "success" ∧
    zeroRowResult.data = [] ∧
    "id" ∈ zeroRowResult.columns ∧
    containsText "id" (renderQueryPageResult zeroRowResult) = false := by
  refine ⟨rfl, rfl, by decide, ?_⟩
  have h0 : natToString 0 = "0" := by
    unfold natToString natDigits
    rfl
  simp only [renderQueryPageResult, zeroRowResult]
  rw [h0]
  decide

/-- C4 (amended): every successful query result carries the seven fields of
`types/query.ts` (query id, SQL, columns, data, row count, execution time,
status); the rendered results card depends on exactly the five fields of the
claim — results differing only in `query_id` or `status` render identically —
and it displays the row count, the execution time and the SQL always, and
every column name and every formatted cell whenever the data is non-empty
(a zero-row result renders the table's empty state instead). -/
theorem renderQueryPageResult_shows_all_fields (r : QueryResult) :
    (∀ r2 : QueryResult,
      r2.columns = r.columns → r2.data = r.data → r2.row_count = r.row_count →
      r2.execution_time_ms = r.execution_time_ms → r2.sql_query = r.sql_query →
      renderQueryPageResult r2 = renderQueryPageResult r) ∧
    containsText (natToString r.row_count) (renderQueryPageResult r) = true ∧
    containsText (natToString r.execution_time_ms ++ "ms") (renderQueryPageResult r) = true ∧
    containsText r.sql_query (renderQueryPageResult r) = true ∧
    (r.data ≠ [] →
      (∀ c ∈ r.columns, containsText c (renderQueryPageResult r) = true) ∧
      (∀ row ∈ r.data, ∀ c ∈ r.columns,
        containsText (formatValue (getField row c)) (renderQueryPageResult r) = true)) := by
  have hdesc : ∀ t : Node, t ∈
      [ Node.text (natToString r.row_count)
      , Node.text (if r.row_count == 1 then " row" else " rows")
      , Node.text " returned"
      , Node.elem "span" [Node.text (natToString r.execution_time_ms ++ "ms")] ] →
      ∀ s : String, containsText s t = true →
      containsText s (renderQueryPageResult r) = true := by
    intro t ht s hs
    rw [renderQueryPageResult]
    exact containsText_elem_of_mem (List.mem_cons_self _ _)
      (containsText_elem_of_mem (List.mem_cons_of_mem _ (List.mem_cons_self _ _))
        (containsText_elem_of_mem ht hs))
  have htabs : ∀ t : Node, t ∈
      [ Node.elem "TabsContent-results" [renderResultsTable r.columns r.data]
      , Node.elem "TabsContent-sql" [Node.elem "pre" [Node.elem "code" [Node.text r.sql_query]]] ] →
      ∀ s : String, containsText s t = true →
      containsText s (renderQueryPageResult r) = true := by
    intro t ht s hs
    rw [renderQueryPageResult]
    exact containsText_elem_of_mem (List.mem_cons_of_mem _ (List.mem_cons_self _ _))
      (containsText_elem_of_mem (List.mem_cons_self _ _)
        (containsText_elem_of_mem ht hs))
  refine ⟨?_, ?_, ?_, ?_, fun hdata => ⟨fun c hc => ?_, fun row hrow c hc => ?_⟩⟩
  · intro r2 h1 h2 h3 h4 h5
    simp only [renderQueryPageResult, h1, h2, h3, h4, h5]
  · exact hdesc _ (List.mem_cons_self _ _) _ (containsText_text_self _)
  · exact hdesc _
      (List.mem_cons_of_mem _ (List.mem_cons_of_mem _
        (List.mem_cons_of_mem _ (List.mem_cons_self _ _)))) _
      (containsText_elem_of_mem (List.mem_singleton_self _) (containsText_text_self _))
  · exact htabs _ (List.mem_cons_of_mem _ (List.mem_cons_self _ _)) _
      (containsText_elem_of_mem (List.mem_singleton_self _)
        (containsText_elem_of_mem (List.mem_singleton_self _)
          (containsText_elem_of_mem (List.mem_singleton_self _) (containsText_text_self _))))
  · exact htabs _ (List.mem_cons_self _ _) _
      (containsText_elem_of_mem (List.mem_singleton_self _)
        (containsText_results_table_column r.columns r.data hdata c hc))
  · exact htabs _ (List.mem_cons_self _ _) _
      (containsText_elem_of_mem (List.mem_singleton_self _)
        (containsText_results_table_cell r.columns r.data row hrow c hc))

/-- Witness for the amended C4 at a concrete one-row result: a result
differing only in query id and status renders identically, and all five
claim fields are displayed. -/
theorem renderQueryPageResult_shows_all_fields_witness :
    renderQueryPageResult
        { query_id := "other-id", sql_query := queryPageDemo.sql_query
        , columns := queryPageDemo.columns, data := queryPageDemo.data
        , row_count := queryPageDemo.row_count
        , execution_time_ms := queryPageDemo.execution_time_ms
        , status := "failed" } = renderQueryPageResult queryPageDemo ∧
    containsText (natToString queryPageDemo.row_count) (renderQueryPageResult queryPageDemo) = true ∧
    containsText (natToString queryPageDemo.execution_time_ms ++ "ms") (renderQueryPageResult queryPageDemo) = true ∧
    containsText queryPageDemo.sql_query (renderQueryPageResult queryPageDemo) = true ∧
    queryPageDemo.data ≠ [] ∧
    containsText "id" (renderQueryPageResult queryPageDemo) = true ∧
    containsText (formatValue (getField [("id", JSValue.num 7)] "id")) (renderQueryPageResult queryPageDemo) = true := by
  have h := renderQueryPageResult_shows_all_fields queryPageDemo
  have hne : queryPageDemo.data ≠ [] := List.cons_ne_nil _ _
  have hrest := h.2.2.2.2 hne
  exact ⟨h.1 _ rfl rfl rfl rfl rfl, h.2.1, h.2.2.1, h.2.2.2.1, hne,
    hrest.1 "id" (by simp [queryPageDemo]),
    hrest.2 [("id", JSValue.num 7)] (by simp [queryPageDemo]) "id" (by simp [queryPageDemo])⟩

/-- C9 (amended): for a query result whose column names contain no newline,
the CSV export content splits into exactly `1 + data.length` lines; the first
line is the column names joined by commas, and each subsequent line joins, per
column in column order, `JSON.stringify` of the cell value with `null` or
`undefined` cells replaced by the empty string. -/
theorem handleExportCsv_lines (r : QueryResult)
    (hcols : ∀ c ∈ r.columns, '\n' ∉ c.data) :
    linesOf (handleExportCsv r).content =
      joinWith "," r.columns ::
        r.data.map (fun row => joinWith "," (r.columns.map (csvCell row))) ∧
    (linesOf (handleExportCsv r).content).length = 1 + r.data.length := by
  have hcontent : (handleExportCsv r).content =
      joinWith "\n" (joinWith "," r.columns ::
        r.data.map (fun row => joinWith "," (r.columns.map (csvCell row)))) := rfl
  have hmain : linesOf (handleExportCsv r).content =
      joinWith "," r.columns ::
        r.data.map (fun row => joinWith "," (r.columns.map (csvCell row))) := by
    rw [hcontent]
    apply linesOf_joinWith _ (List.cons_ne_nil _ _)
    intro x hx
    rcases List.mem_cons.mp hx with rfl | hmem
    · exact newline_not_mem_joinWith "," (by decide) r.columns hcols
    · rcases List.mem_map.mp hmem with ⟨row, _, rfl⟩
      apply newline_not_mem_joinWith "," (by decide)
      intro cell hcell
      rcases List.mem_map.mp hcell with ⟨col, _, rfl⟩
      exact csvCell_noNewline row col
  exact ⟨hmain, by rw [hmain]; simp; omega⟩

/-- Counterexample to C9 as stated: with a column name containing a newline,
the exported CSV has 2 lines although `1 + data.length = 1`. -/
theorem handleExportCsv_line_count_counterexample :
    (linesOf (handleExportCsv csvNewlineColumn).content).length ≠
      1 + csvNewlineColumn.data.length := by
  decide

/-- Witness for the amended C9 at a concrete one-row result. -/
theorem handleExportCsv_lines_witness :
    (∀ c ∈ queryPageDemo.columns, '\n' ∉ c.data) ∧
    linesOf (handleExportCsv queryPageDemo).content =
      joinWith "," queryPageDemo.columns ::
        queryPageDemo.data.map
          (fun row => joinWith "," (queryPageDemo.columns.map (csvCell row))) ∧
    (linesOf (handleExportCsv queryPageDemo).content).length = 1 + queryPageDemo.data.length :=
  ⟨by decide, handleExportCsv_lines queryPageDemo (by decide)⟩

/- ===================================================================
   Theorems for C5.
   =================================================================== -/

/-- Helper: `a || b` on strings is non-empty whenever `b` is non-empty. -/
theorem jsOrStr_ne_empty (a b : String) (hb : b ≠ "") : jsOrStr a b ≠ "" := by
  unfold jsOrStr
  split
  · exact hb
  · rename_i h
    simpa using h

/-- C5: every response with `ok = false` makes `handleResponse` throw a
structured `ApiError` — never a raw exception — carrying the HTTP status and
status text (with `detail` optionally extracted from the body), and
`executeQuery` converts it to a non-empty readable error string with the fixed
fallback message before rethrowing the same structured error. -/
theorem handleResponse_structured_error (resp : Response) (hok : resp.ok = false) :
    ∃ e : ApiError,
      handleResponse resp = .error (.api e) ∧
      e.status = resp.status ∧
      e.message = resp.statusText ∧
      (executeQuery resp).errorState =
        some (errorToDisplay (.api e) "Failed to execute query") ∧
      (executeQuery resp).result = .error (.api e) ∧
      errorToDisplay (.api e) "Failed to execute query" ≠ "" := by
  have hresp : handleResponse resp = .error (.api
      { message := resp.statusText, status := resp.status
      , detail := match resp.json with | .ok body => errDetailOf body | .error _ => none }) := by
    unfold handleResponse
    rw [hok]
    cases resp.json <;> rfl
  refine ⟨_, hresp, rfl, rfl, ?_, ?_, ?_⟩
  · unfold executeQuery
    rw [hresp]
  · unfold executeQuery
    rw [hresp]
  · unfold errorToDisplay
    exact jsOrStr_ne_empty _ _ (jsOrStr_ne_empty _ _ (by decide))

/-- Witness for C5 at a concrete failing response. -/
theorem handleResponse_structured_error_witness :
    apiDemoResponse.ok = false ∧
    ∃ e : ApiError,
      handleResponse apiDemoResponse = .error (.api e) ∧
      e.status = apiDemoResponse.status ∧
      e.message = apiDemoResponse.statusText ∧
      (executeQuery apiDemoResponse).errorState =
        some (errorToDisplay (.api e) "Failed to execute query") ∧
      (executeQuery apiDemoResponse).result = .error (.api e) ∧
      errorToDisplay (.api e) "Failed to execute query" ≠ "" :=
  ⟨rfl, handleResponse_structured_error apiDemoResponse rfl⟩

/- ===================================================================
   Theorems for C2, C3, C7.
   =================================================================== -/

/-- The initial dialog state satisfies the test invariant. -/
theorem testInvariant_initial : TestInvariant initialGhostState := by
  intro ts h
  simp [initialGhostState, initialDialogState] at h

/-- Every dialog step preserves the test invariant. -/
theorem testInvariant_step (g : GhostDialogState) (hg : TestInvariant g)
    (e : DialogEvent) : TestInvariant (ghostStep g e).1 := by
  intro ts hts
  cases e with
  | change f v =>
    simp [ghostStep, handleChange] at hts
  | test r =>
    by_cases hmiss : requiredFieldsMissing g.dialog.formData
    · simp [ghostStep, handleTest, hmiss] at hts
    · cases r with
      | ok res =>
        simp [ghostStep, handleTest, hmiss] at hts ⊢
        rw [← hts]
        rfl
      | error err =>
        simp [ghostStep, handleTest, hmiss, testOutcomeSuccess] at hts ⊢
        rw [← hts]
  | submit r =>
    by_cases hname : (g.dialog.formData.name == "") = true
    · simp [ghostStep, handleSubmit, hname] at hts ⊢
      exact hg ts hts
    · cases hstat : g.dialog.testStatus with
      | none =>
        simp [ghostStep, handleSubmit, hname, hstat] at hts
      | some ts0 =>
        by_cases hsucc : ts0.success = true
        · cases r with
          | ok u =>
            simp [ghostStep, handleSubmit, hname, hstat, hsucc] at hts
          | error err =>
            simp [ghostStep, handleSubmit, hname, hstat, hsucc] at hts ⊢
            subst hts
            exact hg ts0 hstat
        · simp [ghostStep, handleSubmit, hname, hstat, hsucc] at hts ⊢
          subst hts
          exact hg ts0 hstat

/-- The test invariant holds after any run from the initial state. -/
theorem testInvariant_run (es : List DialogEvent) :
    TestInvariant (runDialog initialGhostState es) := by
  suffices h : ∀ g, TestInvariant g → TestInvariant (runDialog g es) from
    h initialGhostState testInvariant_initial
  induction es with
  | nil => intro g hg; exact hg
  | cons e es ih =>
    intro g hg
    exact ih _ (testInvariant_step g hg e)

/-- C2: `createConnection` is invoked only in states whose `testStatus` is
non-null with `success = true`; its argument is the current form data; every
form change resets `testStatus` to null; and by the test invariant the
submitted values are exactly the values of the most recent successful
`testConnection` call. -/
theorem createConnection_requires_successful_test :
    (∀ (es : List DialogEvent) (e : DialogEvent) (c : CreateConnectionData),
      (ghostStep (runDialog initialGhostState es) e).2 = some c →
      ∃ ts : TestStatus,
        (runDialog initialGhostState es).dialog.testStatus = some ts ∧
        ts.success = true ∧
        c = (runDialog initialGhostState es).dialog.formData ∧
        (runDialog initialGhostState es).lastTest = some (toTestData c, true)) ∧
    (∀ (s : DialogState) (f : FormField) (v : FieldValue),
      (handleChange s f v).testStatus = none) := by
  constructor
  · intro es e c hc
    have hinv : TestInvariant (runDialog initialGhostState es) := testInvariant_run es
    set g := runDialog initialGhostState es
    cases e with
    | change f v => simp [ghostStep] at hc
    | test r => simp [ghostStep] at hc
    | submit r =>
      simp only [ghostStep] at hc
      by_cases hname : (g.dialog.formData.name == "") = true
      · simp [handleSubmit, hname] at hc
      · cases hstat : g.dialog.testStatus with
        | none => simp [handleSubmit, hname, hstat] at hc
        | some ts0 =>
          by_cases hsucc : ts0.success = true
          · have hc2 : c = g.dialog.formData := by
              cases r with
              | ok u =>
                simp [handleSubmit, hname, hstat, hsucc] at hc
                exact hc.symm
              | error err =>
                simp [handleSubmit, hname, hstat, hsucc] at hc
                exact hc.symm
            refine ⟨ts0, rfl, hsucc, hc2, ?_⟩
            have hlast := hinv ts0 hstat
            rw [hc2, hlast, hsucc]
          · cases r with
            | ok u => simp [handleSubmit, hname, hstat, hsucc] at hc
            | error err => simp [handleSubmit, hname, hstat, hsucc] at hc
  · intro s f v
    rfl

/-- Witness for C2: a concrete run that creates a connection immediately after
a successful test of exactly the submitted values. -/
theorem createConnection_requires_successful_test_witness :
    (ghostStep (runDialog initialGhostState dialogDemoEvents) (.submit (.ok ()))).2 =
      some dialogDemoData ∧
    ∃ ts : TestStatus,
      (runDialog initialGhostState dialogDemoEvents).dialog.testStatus = some ts ∧
      ts.success = true ∧
      dialogDemoData = (runDialog initialGhostState dialogDemoEvents).dialog.formData ∧
      (runDialog initialGhostState dialogDemoEvents).lastTest =
        some (toTestData dialogDemoData, true) :=
  ⟨rfl, createConnection_requires_successful_test.1 dialogDemoEvents (.submit (.ok ()))
    dialogDemoData rfl⟩

/-- C3: a standalone connection test persists nothing — for every outcome of
`handleTest`, no `createConnection` call is recorded and the form data is
unchanged (only `testStatus` and `error` are updated). -/
theorem handleTest_no_persistence :
    ∀ (g : GhostDialogState) (r : Except Thrown TestConnectionResult),
      (ghostStep g (.test r)).2 = none ∧
      (ghostStep g (.test r)).1.dialog.formData = g.dialog.formData := by
  intro g r
  refine ⟨rfl, ?_⟩
  show (handleTest g.dialog r).formData = g.dialog.formData
  unfold handleTest
  by_cases hmiss : requiredFieldsMissing g.dialog.formData
  · simp [hmiss]
  · cases r <;> simp [hmiss]

/-- Counterexample to C7 as stated: the implemented `TestConnectionResult`
carries information beyond `{success, message, response_time_ms?}` — two
distinct results agree on all three spec fields but differ in the extra
optional `error` field. -/
theorem testConnectionResult_shape_counterexample :
    toSpecShape { success := true, message := "ok", error := some "boom", response_time_ms := none } =
      toSpecShape { success := true, message := "ok", error := none, response_time_ms := none } ∧
    ({ success := true, message := "ok", error := some "boom", response_time_ms := none } : TestConnectionResult) ≠
      { success := true, message := "ok", error := none, response_time_ms := none } := by
  exact ⟨rfl, by decide⟩

/-- C7 (amended): the connection-test result record consists of exactly a
boolean `success`, a string `message`, an optional string `error`, and an
optional `response_time_ms`; and the add-connection dialog's `handleTest`
consumes precisely `success` and `message` of a resolved result. -/
theorem testConnectionResult_fields :
    (∀ r : TestConnectionResult,
      r = { success := r.success, message := r.message
          , error := r.error, response_time_ms := r.response_time_ms }) ∧
    (∀ (s : DialogState) (r1 r2 : TestConnectionResult),
      r1.success = r2.success → r1.message = r2.message →
      handleTest s (.ok r1) = handleTest s (.ok r2)) := by
  constructor
  · intro r
    rfl
  · intro s r1 r2 h1 h2
    by_cases hmiss : requiredFieldsMissing s.formData
    · simp [handleTest, hmiss]
    · simp [handleTest, hmiss, h1, h2]

/-- Witness for C7: two concrete results differing only outside `success` and
`message` produce identical `handleTest` outcomes. -/
theorem testConnectionResult_fields_witness :
    ({ success := true, message := "m", error := some "e", response_time_ms := some 5 } : TestConnectionResult).success =
      ({ success := true, message := "m", error := none, response_time_ms := none } : TestConnectionResult).success ∧
    ({ success := true, message := "m", error := some "e", response_time_ms := some 5 } : TestConnectionResult).message =
      ({ success := true, message := "m", error := none, response_time_ms := none } : TestConnectionResult).message ∧
    handleTest initialDialogState
        (.ok { success := true, message := "m", error := some "e", response_time_ms := some 5 }) =
      handleTest initialDialogState
        (.ok { success := true, message := "m", error := none, response_time_ms := none }) :=
  ⟨rfl, rfl, testConnectionResult_fields.2 initialDialogState
    { success := true, message := "m", error := some "e", response_time_ms := some 5 }
    { success := true, message := "m", error := none, response_time_ms := none } rfl rfl⟩

/- ===================================================================
   Theorems for C1.
   =================================================================== -/

/-- C1: every SQL string containing any of the keywords INSERT, UPDATE,
DELETE, DROP, ALTER, TRUNCATE, GRANT, REVOKE or CREATE anywhere among its
word tokens — in any clause position, a CTE included — is rejected by
`validate`, regardless of the leading keyword. -/
theorem validate_rejects_mutating_keyword (sql : String)
    (h : (sqlTokens (trimString sql)).any (fun t => mutatingKeywords.contains t) = true) :
    (validate sql).allowed = false := by
  unfold validate
  simp at h
  by_cases hs : singleStatement sql
  · simp [hs, h]
  · simp [hs]

/-- Witness for C1: a statement whose leading keyword WITH is allow-listed but
which hides an INSERT inside the CTE body is rejected. -/
theorem validate_rejects_mutating_keyword_witness :
    (sqlTokens (trimString "WITH t AS (SELECT 1) INSERT INTO x SELECT * FROM t")).any
      (fun t => mutatingKeywords.contains t) = true ∧
    (validate "WITH t AS (SELECT 1) INSERT INTO x SELECT * FROM t").allowed = false :=
  ⟨by decide, validate_rejects_mutating_keyword _ (by decide)⟩

/- ===================================================================
   Theorems for C6.
   =================================================================== -/

/-- Helper: tenant-scoped lookup fails when no record matches id and tenant. -/
theorem find?_scoped_eq_none (recs : List QueryRecordRow) (id0 tenant : String)
    (h : ∀ r ∈ recs, r.id = id0 → r.tenant_id ≠ tenant) :
    recs.find? (fun r => r.id == id0 && r.tenant_id == tenant) = none := by
  rw [List.find?_eq_none]
  intro r hr hp
  simp only [Bool.and_eq_true, beq_iff_eq] at hp
  exact h r hr hp.1 hp.2

/-- Helper: tenant-scoped connection lookup fails likewise. -/
theorem find?_conn_eq_none (conns : List ConnectionRow) (id0 tenant : String)
    (h : ∀ c ∈ conns, c.id = id0 → c.tenant_id ≠ tenant) :
    conns.find? (fun c => c.id == id0 && c.tenant_id == tenant) = none := by
  rw [List.find?_eq_none]
  intro c hc hp
  simp only [Bool.and_eq_true, beq_iff_eq] at hp
  exact h c hc hp.1 hp.2

/-- C6: for every query id or connection id not owned by the requesting
tenant, each tenant-scoped operation (`get`, `delete`, `markSaved`,
`acquire`) fails with `NotFound`; `list` never exposes another tenant's
records; and no operation ever returns `Forbidden`, so cross-tenant requests
cannot learn whether the resource exists. -/
theorem tenant_scoped_operations_notFound :
    (∀ (recs : List QueryRecordRow) (id0 tenant : String),
      (∀ r ∈ recs, r.id = id0 → r.tenant_id ≠ tenant) →
      getRecord recs id0 tenant = .error .notFound ∧
      deleteRecord recs id0 tenant = .error .notFound ∧
      (∀ title, markSaved recs id0 tenant title = .error .notFound)) ∧
    (∀ (conns : List ConnectionRow) (id0 tenant : String),
      (∀ c ∈ conns, c.id = id0 → c.tenant_id ≠ tenant) →
      acquire conns id0 tenant = .error .notFound) ∧
    (∀ (recs : List QueryRecordRow) (tenant user : String) (savedOnly : Bool),
      ∀ r ∈ listRecords recs tenant user savedOnly, r.tenant_id = tenant) ∧
    (∀ (recs : List QueryRecordRow) (id0 tenant : String),
      getRecord recs id0 tenant ≠ .error .forbidden ∧
      deleteRecord recs id0 tenant ≠ .error .forbidden ∧
      (∀ title, markSaved recs id0 tenant title ≠ .error .forbidden)) ∧
    (∀ (conns : List ConnectionRow) (id0 tenant : String),
      acquire conns id0 tenant ≠ .error .forbidden) := by
  refine ⟨?_, ?_, ?_, ?_, ?_⟩
  · intro recs id0 tenant h
    have hf := find?_scoped_eq_none recs id0 tenant h
    exact ⟨by simp [getRecord, hf], by simp [deleteRecord, hf],
      fun title => by simp [markSaved, hf]⟩
  · intro conns id0 tenant h
    have hf := find?_conn_eq_none conns id0 tenant h
    simp [acquire, hf]
  · intro recs tenant user savedOnly r hr
    have := (List.mem_filter.mp hr).2
    simp only [Bool.and_eq_true, beq_iff_eq] at this
    exact this.1.1
  · intro recs id0 tenant
    refine ⟨?_, ?_, fun title => ?_⟩
    · unfold getRecord
      cases recs.find? (fun r => r.id == id0 && r.tenant_id == tenant) <;> simp
    · unfold deleteRecord
      cases recs.find? (fun r => r.id == id0 && r.tenant_id == tenant) <;> simp
    · unfold markSaved
      cases recs.find? (fun r => r.id == id0 && r.tenant_id == tenant) <;> simp
  · intro conns id0 tenant
    unfold acquire
    cases conns.find? (fun c => c.id == id0 && c.tenant_id == tenant) <;> simp

/-- Witness for C6: tenant B probing tenant A's query and connection ids gets
`NotFound` from every operation. -/
theorem tenant_scoped_operations_notFound_witness :
    (∀ r ∈ demoRecords, r.id = "q1" → r.tenant_id ≠ "tenantB") ∧
    getRecord demoRecords "q1" "tenantB" = .error .notFound ∧
    deleteRecord demoRecords "q1" "tenantB" = .error .notFound ∧
    markSaved demoRecords "q1" "tenantB" "my query" = .error .notFound ∧
    acquire demoConnections "c1" "tenantB" = .error .notFound := by
  have h1 : ∀ r ∈ demoRecords, r.id = "q1" → r.tenant_id ≠ "tenantB" := by decide
  have h2 : ∀ c ∈ demoConnections, c.id = "c1" → c.tenant_id ≠ "tenantB" := by decide
  have hrec := tenant_scoped_operations_notFound.1 demoRecords "q1" "tenantB" h1
  have hconn := tenant_scoped_operations_notFound.2.1 demoConnections "c1" "tenantB" h2
  exact ⟨h1, hrec.1, hrec.2.1, hrec.2.2 "my query", hconn⟩

/- ===================================================================
   Theorems for C10.
   =================================================================== -/

/-- Counterexample to C10 as stated: the Previous button is disabled at
page 2 while a load is in flight, although the page does not equal 1. -/
theorem prevDisabled_not_only_page_one :
    prevDisabled { page := 2, loading := true } = true ∧ (2 : Nat) ≠ 1 := by
  decide

/-- Helper: one pagination step keeps the page within `[1, max 1 totalPages]`. -/
theorem historyStep_bounds (total : Nat) (s : HistoryPageState) (e : HistoryEvent)
    (h1 : 1 ≤ s.page) (h2 : s.page ≤ max 1 (totalPages total)) :
    1 ≤ (historyStep total s e).page ∧
    (historyStep total s e).page ≤ max 1 (totalPages total) := by
  unfold historyStep
  by_cases htp : totalPages total ≤ 1
  · rw [if_pos htp]
    cases e <;> exact ⟨h1, h2⟩
  · rw [if_neg htp]
    have hmax : max 1 (totalPages total) = totalPages total :=
      Nat.max_eq_right (by omega)
    rw [hmax] at h2 ⊢
    cases e with
    | clickPrev =>
      by_cases hd : prevDisabled s = true
      · rw [if_pos hd]
        exact ⟨h1, h2⟩
      · rw [if_neg hd]
        simp only [prevDisabled, Bool.or_eq_true, beq_iff_eq, not_or] at hd
        have hne : s.page ≠ 1 := hd.1
        constructor
        · simp only
          omega
        · simp only
          omega
    | clickNext =>
      by_cases hd : nextDisabled total s = true
      · rw [if_pos hd]
        exact ⟨h1, h2⟩
      · rw [if_neg hd]
        simp only [nextDisabled, Bool.or_eq_true, beq_iff_eq, not_or] at hd
        have hne : s.page ≠ totalPages total := hd.1
        constructor
        · simp only
          omega
        · simp only
          omega
    | loadingChanged b => exact ⟨h1, h2⟩

/-- C10 (amended): the Previous button is disabled exactly when the page is 1
or a load is in flight, the Next button exactly when the page equals
`totalPages = ceil(total / pageSize)` or a load is in flight, and starting
from page 1 every sequence of pagination events keeps the page number within
`[1, max 1 totalPages]`. -/
theorem history_pagination_bounds :
    (∀ s : HistoryPageState,
      prevDisabled s = true ↔ (s.page = 1 ∨ s.loading = true)) ∧
    (∀ (total : Nat) (s : HistoryPageState),
      nextDisabled total s = true ↔ (s.page = totalPages total ∨ s.loading = true)) ∧
    (∀ (total : Nat) (es : List HistoryEvent),
      1 ≤ (runHistory total initialHistoryState es).page ∧
      (runHistory total initialHistoryState es).page ≤ max 1 (totalPages total)) := by
  refine ⟨?_, ?_, ?_⟩
  · intro s
    simp [prevDisabled]
  · intro total s
    simp [nextDisabled]
  · intro total es
    suffices h : ∀ s : HistoryPageState, 1 ≤ s.page → s.page ≤ max 1 (totalPages total) →
        1 ≤ (runHistory total s es).page ∧
        (runHistory total s es).page ≤ max 1 (totalPages total) by
      exact h initialHistoryState (by simp [initialHistoryState])
        (by simp [initialHistoryState])
    induction es with
    | nil => intro s h1 h2; exact ⟨h1, h2⟩
    | cons e es ih =>
      intro s h1 h2
      have hstep := historyStep_bounds total s e h1 h2
      exact ih _ hstep.1 hstep.2
